import Mathlib

/-!
Verification of the submission loop in `src/mint.py` (somnia-moon-pass).

The script is embedded shallowly: the chain client (web3) is an oracle of
per-attempt responses, each RPC-bound call returning `Except String α`.
Console formatting details (colors, UTC timestamps, fixed 4-decimal float
rendering, hex rendering of hashes) are abstracted; log lines are modelled
as an inductive `LogEvent` trace with a `logMessage` rendering.
The `while` loop consumes one oracle entry per loop-body execution; a run
that exhausts the oracle while the loop would continue ends in `outOfFuel`.
-/

namespace MoonPass

/-- The configuration loaded from `.env.mint` (lines 17-29 of mint.py).
`MAX_ITERATIONS` is a Python int, kept as `Int`; `MIN_BALANCE_SOMI` and
`DELAY_SECONDS` are floats, modelled as rationals (floats embed in ℚ). -/
structure Config where
  rpcUrl : String
  privateKey : String
  fromAddress : String
  toAddress : String
  chainId : Nat
  gasLimit : Nat
  maxFeePerGas : Nat
  maxPriorityFeePerGas : Nat
  maxIterations : Int
  delaySeconds : ℚ
  minBalanceSomi : ℚ
  baseData : String
deriving Repr, DecidableEq

/-- The ambient facts `setup_web3` (lines 38-47) consults: the installed
web3 library version string, endpoint reachability, and the address the
library derives from the private key. -/
structure SetupEnv where
  web3Version : String
  isConnected : Bool
  derivedAddress : String
deriving Repr, DecidableEq

/-- A transaction receipt as consumed on lines 116-122. -/
structure Receipt where
  blockNumber : Nat
  status : Nat
deriving Repr, DecidableEq

/-- The transaction dict built on lines 76-85. -/
structure Transaction where
  fromAddr : String
  toAddr : String
  chainId : Nat
  gas : Nat
  maxFeePerGas : Nat
  maxPriorityFeePerGas : Nat
  nonce : Nat
  data : String
deriving Repr, DecidableEq

deriving instance DecidableEq for Except

/-- One loop-body execution's worth of chain-client responses: each field is
what the corresponding RPC call returns, or the exception it raises.
Signed payloads and transaction hashes are opaque, modelled as `Nat`. -/
structure IterResponses where
  getBalance : Except String Nat
  getTransactionCount : Except String Nat
  estimateGas : Except String Nat
  signTransaction : Except String Nat
  sendRawTransaction : Except String Nat
  waitForReceipt : Except String Receipt
deriving Repr, DecidableEq

/-- `w3.from_wei(balance, ether)` (line 66): exact division by 10^18
(web3 returns an exact `Decimal`). -/
def fromWei (wei : Nat) : ℚ := (wei : ℚ) / (10 ^ 18 : ℚ)

/-- The log lines `main` can emit, in the order of mint.py; payloads carry
the interpolated values. -/
inductive LogEvent
  | setupOk
  | setupCrashed (msg : String)
  | iterStart (k maxIter : Int)
  | lowBalance (balWei : Nat) (minB : ℚ)
  | balanceOk (balWei : Nat)
  | balanceCheckFailed (msg : String)
  | buildFailed (msg : String)
  | gasWarning (est limit : Nat)
  | gasEstimateFailed (msg : String)
  | signFailed (msg : String)
  | txSent (hash : Nat)
  | mined (block : Nat)
  | mintSuccess
  | txFailedStatus
  | sendFailed (msg : String)
  | chilling (d : ℚ)
  | hitMax (n : Int)
  | stoppedEarly
deriving Repr, DecidableEq

/-- The message text of each log line, as in mint.py (numeric formatting of
floats and hex rendering of hashes abstracted to `toString`). -/
def logMessage : LogEvent → String
  | .setupOk => "Web3 connected, account ready. Time to mint!"
  | .setupCrashed e => "Setup crashed: " ++ e
  | .iterStart k m =>
      "Iteration " ++ toString k ++ "/" ++ toString m ++ ": Trying mint ..."
  | .lowBalance b m =>
      "Low balance (" ++ toString (fromWei b) ++ " SOMI < " ++ toString m
        ++ " SOMI). Stopping."
  | .balanceOk b => "Balance: " ++ toString (fromWei b) ++ " SOMI. Good to go."
  | .balanceCheckFailed e => "Balance check failed: " ++ e ++ ". Gracefully stopping."
  | .buildFailed e => "Couldn’t build tx: " ++ e ++ ". Gracefully stopping."
  | .gasWarning est lim =>
      "Gas warning: Estimate " ++ toString est ++ " > limit " ++ toString lim ++ "."
  | .gasEstimateFailed e => "Gas estimation failed: " ++ e ++ ". Gracefully stopping."
  | .signFailed e => "Signing failed: " ++ e ++ ". Gracefully stopping."
  | .txSent h => "Tx sent! Hash: " ++ toString h
  | .mined b => "Mined in block " ++ toString b
  | .mintSuccess => "Mint successful!"
  | .txFailedStatus => "Tx failed. Gracefully stopping."
  | .sendFailed e => "Tx send failed: " ++ e ++ ". Gracefully stopping."
  | .chilling d => "Chilling for " ++ toString d ++ "s..."
  | .hitMax n => "Hit max iterations (" ++ toString n ++ "). Done!"
  | .stoppedEarly => "Stopped early—check errors above."

/-- `setup_web3` (lines 38-47). Python compares version strings with `<`,
which is lexicographic on code points, exactly `String.lt`. -/
def setup_web3 (env : SetupEnv) (cfg : Config) : Except String String :=
  if env.web3Version < "6.0.0" then
    .error "Need web3.py 6.0.0+. Run \x27pip install web3>=6.0.0\x27."
  else if env.isConnected = false then
    .error "RPC connection failed. Check URL or network."
  else if env.derivedAddress.toLower ≠ cfg.fromAddress.toLower then
    .error "Private key and from address don’t match."
  else
    .ok env.derivedAddress

/-- The transaction dict of lines 76-85, given the fetched nonce. -/
def mkTx (cfg : Config) (nonce : Nat) : Transaction :=
  { fromAddr := cfg.fromAddress
    toAddr := cfg.toAddress
    chainId := cfg.chainId
    gas := cfg.gasLimit
    maxFeePerGas := cfg.maxFeePerGas
    maxPriorityFeePerGas := cfg.maxPriorityFeePerGas
    nonce := nonce
    data := cfg.baseData }

/-- Output of one loop-body execution: emitted events, transaction dicts
completed (line 76), transactions passed to `sign_transaction` (line 105),
and `next`: `none` when the body executes `return`, `some i` to continue
with counter value `i`. -/
structure BodyOut where
  events : List LogEvent
  built : List Transaction
  signedCalls : List Transaction
  next : Option Int
deriving Repr, DecidableEq

/-- Lines 75-125: everything after the balance check, entered with the
events logged so far. Mirrors the try/except chain: build tx, estimate gas,
sign, send, wait for receipt. -/
def afterBalance (cfg : Config) (r : IterResponses) (iteration : Int)
    (evs : List LogEvent) : BodyOut :=
  match r.getTransactionCount with
  | .error e =>
      { events := evs ++ [.buildFailed e], built := [], signedCalls := []
        next := none }
  | .ok nonce =>
    let txn := mkTx cfg nonce
    match r.estimateGas with
    | .error e =>
        { events := evs ++ [.gasEstimateFailed e], built := [txn]
          signedCalls := [], next := none }
    | .ok est =>
      let evs := evs ++ (if cfg.gasLimit < est then [.gasWarning est cfg.gasLimit] else [])
      match r.signTransaction with
      | .error e =>
          { events := evs ++ [.signFailed e], built := [txn]
            signedCalls := [txn], next := none }
      | .ok _signed =>
        match r.sendRawTransaction with
        | .error e =>
            { events := evs ++ [.sendFailed e], built := [txn]
              signedCalls := [txn], next := none }
        | .ok txHash =>
          let evs := evs ++ [.txSent txHash]
          match r.waitForReceipt with
          | .error e =>
              { events := evs ++ [.sendFailed e], built := [txn]
                signedCalls := [txn], next := none }
          | .ok receipt =>
            let evs := evs ++ [.mined receipt.blockNumber]
            if receipt.status = 1 then
              { events := evs ++ [.mintSuccess], built := [txn]
                signedCalls := [txn], next := some (iteration + 1) }
            else
              { events := evs ++ [.txFailedStatus], built := [txn]
                signedCalls := [txn], next := some iteration }

/-- One execution of the `while` body (lines 60-125). Note the balance
except-branch (lines 71-72) logs but does not return: control falls through
to the transaction build, exactly as in the source. -/
def iterBody (cfg : Config) (r : IterResponses) (iteration : Int) : BodyOut :=
  let evs0 : List LogEvent := [.iterStart (iteration + 1) cfg.maxIterations]
  match r.getBalance with
  | .ok balance =>
      if fromWei balance < cfg.minBalanceSomi then
        { events := evs0 ++ [.lowBalance balance cfg.minBalanceSomi]
          built := [], signedCalls := [], next := none }
      else
        afterBalance cfg r iteration (evs0 ++ [.balanceOk balance])
  | .error e =>
      afterBalance cfg r iteration (evs0 ++ [.balanceCheckFailed e])

/-- How a run ends: `finished` = fell out of the `while` by its condition
and ran the terminal `if`/`else` (lines 132-135); `earlyReturn` = a body
executed `return`; `outOfFuel` = the oracle list ran out while the loop
would have continued. -/
inductive RunResult
  | finished
  | earlyReturn
  | outOfFuel
deriving Repr, DecidableEq

/-- Aggregate observable output of a run. `successes` is the final value of
the Python `iteration` counter (incremented only on a success receipt). -/
structure RunOut where
  events : List LogEvent
  built : List Transaction
  signedCalls : List Transaction
  successes : Int
  result : RunResult
deriving Repr, DecidableEq

/-- The `while` loop of lines 58-135, consuming one oracle entry per body
execution, plus the terminal `if iteration >= MAX_ITERATIONS` report. -/
def runLoop (cfg : Config) (resps : List IterResponses) (iteration : Int) : RunOut :=
  if iteration < cfg.maxIterations then
    match resps with
    | [] =>
        { events := [], built := [], signedCalls := [], successes := iteration
          result := .outOfFuel }
    | r :: rest =>
      match (iterBody cfg r iteration).next with
      | none =>
          { events := (iterBody cfg r iteration).events
            built := (iterBody cfg r iteration).built
            signedCalls := (iterBody cfg r iteration).signedCalls
            successes := iteration, result := .earlyReturn }
      | some i' =>
          { events := (iterBody cfg r iteration).events
              ++ (if i' < cfg.maxIterations then [.chilling cfg.delaySeconds] else [])
              ++ (runLoop cfg rest i').events
            built := (iterBody cfg r iteration).built ++ (runLoop cfg rest i').built
            signedCalls := (iterBody cfg r iteration).signedCalls
              ++ (runLoop cfg rest i').signedCalls
            successes := (runLoop cfg rest i').successes
            result := (runLoop cfg rest i').result }
  else
    { events := [if cfg.maxIterations ≤ iteration then .hitMax cfg.maxIterations
                 else .stoppedEarly]
      built := [], signedCalls := [], successes := iteration, result := .finished }

/-- `main` (lines 50-135): setup, then the loop from counter 0. -/
def mainRun (env : SetupEnv) (cfg : Config) (resps : List IterResponses) : RunOut :=
  match setup_web3 env cfg with
  | .error e =>
      { events := [.setupCrashed e], built := [], signedCalls := []
        successes := 0, result := .earlyReturn }
  | .ok _ =>
      let out := runLoop cfg resps 0
      { out with events := .setupOk :: out.events }

/-- Event classifiers used to count observable milestones. -/
def isIterStart : LogEvent → Bool
  | .iterStart _ _ => true
  | _ => false

def isMintSuccess : LogEvent → Bool
  | .mintSuccess => true
  | _ => false

def isTxSent : LogEvent → Bool
  | .txSent _ => true
  | _ => false

/-- The two terminal summary lines of lines 132-135. -/
def isTerminal : LogEvent → Bool
  | .hitMax _ => true
  | .stoppedEarly => true
  | _ => false

def isStoppedEarlyEv : LogEvent → Bool
  | .stoppedEarly => true
  | _ => false

/-- Stop or success events: every line announcing a success or a stopping
condition (used for the determinism claim about the stop/success trace). -/
def isStopOrSuccess : LogEvent → Bool
  | .setupCrashed _ => true
  | .lowBalance _ _ => true
  | .balanceCheckFailed _ => true
  | .buildFailed _ => true
  | .gasEstimateFailed _ => true
  | .signFailed _ => true
  | .sendFailed _ => true
  | .txFailedStatus => true
  | .mintSuccess => true
  | .hitMax _ => true
  | .stoppedEarly => true
  | _ => false

/-- A fully successful attempt: balance query succeeds at or above the
minimum, nonce/gas/sign/send succeed, receipt arrives with status 1. -/
def okResp (cfg : Config) (r : IterResponses) : Bool :=
  (match r.getBalance with
   | .ok b => decide (¬ fromWei b < cfg.minBalanceSomi)
   | .error _ => false) &&
  (match r.getTransactionCount with | .ok _ => true | .error _ => false) &&
  (match r.estimateGas with | .ok _ => true | .error _ => false) &&
  (match r.signTransaction with | .ok _ => true | .error _ => false) &&
  (match r.sendRawTransaction with | .ok _ => true | .error _ => false) &&
  (match r.waitForReceipt with
   | .ok rc => decide (rc.status = 1)
   | .error _ => false)

/-- An attempt whose balance step passes but in which the first failing
call is one of: nonce fetch, signing, broadcast, receipt wait. -/
def failsLateStep (cfg : Config) (r : IterResponses) : Bool :=
  (match r.getBalance with
   | .ok b => decide (¬ fromWei b < cfg.minBalanceSomi)
   | .error _ => false) &&
  (match r.getTransactionCount with
   | .error _ => true
   | .ok _ =>
     match r.estimateGas with
     | .error _ => false
     | .ok _ =>
       match r.signTransaction with
       | .error _ => true
       | .ok _ =>
         match r.sendRawTransaction with
         | .error _ => true
         | .ok _ =>
           match r.waitForReceipt with
           | .error _ => true
           | .ok _ => false)

/-- An attempt whose balance query succeeds with a value below the minimum. -/
def lowBalResp (cfg : Config) (r : IterResponses) : Bool :=
  match r.getBalance with
  | .ok b => decide (fromWei b < cfg.minBalanceSomi)
  | .error _ => false

/-- Major component of a dotted version string, numerically. -/
def versionMajor (s : String) : Nat :=
  (s.data.takeWhile Char.isDigit).foldl (fun a c => 10 * a + (c.toNat - 48)) 0

section UnfoldLemmas

lemma runLoop_stop (cfg : Config) (resps : List IterResponses) (i : Int)
    (h : ¬ i < cfg.maxIterations) :
    runLoop cfg resps i =
      { events := [if cfg.maxIterations ≤ i then .hitMax cfg.maxIterations
                   else .stoppedEarly]
        built := [], signedCalls := [], successes := i, result := .finished } := by
  unfold runLoop
  rw [if_neg h]

lemma runLoop_nil (cfg : Config) (i : Int) (h : i < cfg.maxIterations) :
    runLoop cfg [] i =
      { events := [], built := [], signedCalls := [], successes := i
        result := .outOfFuel } := by
  unfold runLoop
  rw [if_pos h]

lemma runLoop_cons_none (cfg : Config) (r : IterResponses)
    (rest : List IterResponses) (i : Int) (h : i < cfg.maxIterations)
    (hn : (iterBody cfg r i).next = none) :
    runLoop cfg (r :: rest) i =
      { events := (iterBody cfg r i).events, built := (iterBody cfg r i).built
        signedCalls := (iterBody cfg r i).signedCalls, successes := i
        result := .earlyReturn } := by
  conv_lhs => unfold runLoop
  rw [if_pos h]
  simp only [hn]

lemma runLoop_cons_some (cfg : Config) (r : IterResponses)
    (rest : List IterResponses) (i i' : Int) (h : i < cfg.maxIterations)
    (hs : (iterBody cfg r i).next = some i') :
    runLoop cfg (r :: rest) i =
      { events := (iterBody cfg r i).events
          ++ (if i' < cfg.maxIterations then [.chilling cfg.delaySeconds] else [])
          ++ (runLoop cfg rest i').events
        built := (iterBody cfg r i).built ++ (runLoop cfg rest i').built
        signedCalls := (iterBody cfg r i).signedCalls
          ++ (runLoop cfg rest i').signedCalls
        successes := (runLoop cfg rest i').successes
        result := (runLoop cfg rest i').result } := by
  conv_lhs => unfold runLoop
  rw [if_pos h]
  simp only [hs]

end UnfoldLemmas

section BodyLemmas

lemma okResp_spec (cfg : Config) (r : IterResponses) (h : okResp cfg r = true) :
    ∃ b n g s w rc,
      r.getBalance = .ok b ∧ ¬ fromWei b < cfg.minBalanceSomi ∧
      r.getTransactionCount = .ok n ∧ r.estimateGas = .ok g ∧
      r.signTransaction = .ok s ∧ r.sendRawTransaction = .ok w ∧
      r.waitForReceipt = .ok rc ∧ rc.status = 1 := by
  simp only [okResp, Bool.and_eq_true] at h
  obtain ⟨⟨⟨⟨⟨h1, h2⟩, h3⟩, h4⟩, h5⟩, h6⟩ := h
  rcases hb : r.getBalance with e | b <;> rw [hb] at h1 <;> simp at h1
  rcases hn : r.getTransactionCount with e | n <;> rw [hn] at h2 <;> simp at h2
  rcases hg : r.estimateGas with e | g <;> rw [hg] at h3 <;> simp at h3
  rcases hs : r.signTransaction with e | s <;> rw [hs] at h4 <;> simp at h4
  rcases hw : r.sendRawTransaction with e | w <;> rw [hw] at h5 <;> simp at h5
  rcases hrc : r.waitForReceipt with e | rc <;> rw [hrc] at h6 <;> simp at h6
  exact ⟨b, n, g, s, w, rc, rfl, not_lt.mpr h1, rfl, rfl, rfl, rfl, rfl, h6⟩

lemma iterBody_ok (cfg : Config) (r : IterResponses) (i : Int)
    (h : okResp cfg r = true) :
    (iterBody cfg r i).next = some (i + 1) ∧
    (iterBody cfg r i).events.countP isIterStart = 1 ∧
    (iterBody cfg r i).events.countP isMintSuccess = 1 ∧
    (iterBody cfg r i).events.countP isTxSent = 1 ∧
    (iterBody cfg r i).events.countP isTerminal = 0 ∧
    (iterBody cfg r i).built.length = 1 := by
  obtain ⟨b, n, g, s, w, rc, hb, hmin, hn, hg, hs, hw, hrc, hst⟩ :=
    okResp_spec cfg r h
  simp only [iterBody, hb]
  rw [if_neg hmin]
  simp only [afterBalance, hn, hg, hs, hw, hrc]
  rw [if_pos hst]
  refine ⟨rfl, ?_, ?_, ?_, ?_, rfl⟩ <;>
    (split <;>
      simp [List.countP_append, List.countP_cons, List.countP_nil,
        isIterStart, isMintSuccess, isTxSent, isTerminal])

lemma afterBalance_next (cfg : Config) (r : IterResponses) (i : Int)
    (evs : List LogEvent) :
    (afterBalance cfg r i evs).next = none ∨
    (afterBalance cfg r i evs).next = some i ∨
    (afterBalance cfg r i evs).next = some (i + 1) := by
  unfold afterBalance
  rcases r.getTransactionCount with e | n <;> simp
  rcases r.estimateGas with e | g <;> simp
  rcases r.signTransaction with e | s <;> simp
  rcases r.sendRawTransaction with e | w <;> simp
  rcases r.waitForReceipt with e | rc <;> simp
  split <;> simp

lemma iterBody_next (cfg : Config) (r : IterResponses) (i : Int) :
    (iterBody cfg r i).next = none ∨
    (iterBody cfg r i).next = some i ∨
    (iterBody cfg r i).next = some (i + 1) := by
  unfold iterBody
  rcases r.getBalance with e | b <;> simp
  · exact afterBalance_next cfg r i _
  · split
    · simp
    · exact afterBalance_next cfg r i _

lemma afterBalance_countP_terminal (cfg : Config) (r : IterResponses) (i : Int)
    (evs : List LogEvent) :
    (afterBalance cfg r i evs).events.countP isTerminal
      = evs.countP isTerminal := by
  unfold afterBalance
  rcases r.getTransactionCount with e | n <;>
    rcases r.estimateGas with e2 | g <;>
    rcases r.signTransaction with e3 | s <;>
    rcases r.sendRawTransaction with e4 | w <;>
    rcases r.waitForReceipt with e5 | rc <;>
    simp [List.countP_append, List.countP_cons, List.countP_nil, isTerminal] <;>
    (try split) <;>
    simp [List.countP_append, List.countP_cons, List.countP_nil, isTerminal]

lemma iterBody_countP_terminal (cfg : Config) (r : IterResponses) (i : Int) :
    (iterBody cfg r i).events.countP isTerminal = 0 := by
  unfold iterBody
  rcases r.getBalance with e | b
  · simp only []
    rw [afterBalance_countP_terminal]
    simp [List.countP_cons, List.countP_nil, isTerminal]
  · simp only []
    split
    · simp [List.countP_cons, List.countP_nil, isTerminal]
    · rw [afterBalance_countP_terminal]
      simp [List.countP_cons, List.countP_nil, isTerminal]

lemma lowBal_spec (cfg : Config) (r : IterResponses)
    (h : lowBalResp cfg r = true) :
    ∃ b, r.getBalance = .ok b ∧ fromWei b < cfg.minBalanceSomi := by
  unfold lowBalResp at h
  rcases hb : r.getBalance with e | b <;> rw [hb] at h <;> simp at h
  exact ⟨b, rfl, h⟩

lemma iterBody_lowBal (cfg : Config) (r : IterResponses) (i : Int)
    (h : lowBalResp cfg r = true) :
    ∃ b, iterBody cfg r i =
      { events := [.iterStart (i + 1) cfg.maxIterations,
                   .lowBalance b cfg.minBalanceSomi]
        built := [], signedCalls := [], next := none } := by
  obtain ⟨b, hb, hlt⟩ := lowBal_spec cfg r h
  refine ⟨b, ?_⟩
  simp only [iterBody, hb]
  rw [if_pos hlt]
  rfl

lemma lateFail_spec (cfg : Config) (r : IterResponses)
    (h : failsLateStep cfg r = true) :
    (∃ b, r.getBalance = .ok b ∧ ¬ fromWei b < cfg.minBalanceSomi) ∧
    ((∃ e, r.getTransactionCount = .error e) ∨
     (∃ n g, r.getTransactionCount = .ok n ∧ r.estimateGas = .ok g ∧
       ((∃ e, r.signTransaction = .error e) ∨
        (∃ s, r.signTransaction = .ok s ∧
          ((∃ e, r.sendRawTransaction = .error e) ∨
           (∃ w, r.sendRawTransaction = .ok w ∧
             (∃ e, r.waitForReceipt = .error e))))))) := by
  simp only [failsLateStep, Bool.and_eq_true] at h
  obtain ⟨h1, h2⟩ := h
  constructor
  · rcases hb : r.getBalance with e | b <;> rw [hb] at h1 <;> simp at h1
    exact ⟨b, rfl, not_lt.mpr h1⟩
  · rcases hn : r.getTransactionCount with e | n <;> rw [hn] at h2
    · exact Or.inl ⟨e, rfl⟩
    · rcases hg : r.estimateGas with e2 | g <;> rw [hg] at h2 <;> simp at h2
      refine Or.inr ⟨n, g, rfl, rfl, ?_⟩
      rcases hs : r.signTransaction with e3 | s <;> rw [hs] at h2
      · exact Or.inl ⟨e3, rfl⟩
      · refine Or.inr ⟨s, rfl, ?_⟩
        rcases hw : r.sendRawTransaction with e4 | w <;> rw [hw] at h2
        · exact Or.inl ⟨e4, rfl⟩
        · refine Or.inr ⟨w, rfl, ?_⟩
          rcases hrc : r.waitForReceipt with e5 | rc <;> rw [hrc] at h2 <;>
            simp at h2
          exact ⟨e5, rfl⟩

lemma iterBody_lateFail (cfg : Config) (r : IterResponses) (i : Int)
    (h : failsLateStep cfg r = true) :
    (iterBody cfg r i).next = none ∧
    (iterBody cfg r i).events.countP isIterStart = 1 ∧
    (iterBody cfg r i).events.countP isMintSuccess = 0 := by
  obtain ⟨⟨b, hb, hmin⟩, hrest⟩ := lateFail_spec cfg r h
  simp only [iterBody, hb]
  rw [if_neg hmin]
  rcases hrest with ⟨e, hn⟩ | ⟨n, g, hn, hg, hrest⟩
  · simp [afterBalance, hn, List.countP_append, List.countP_cons,
      List.countP_nil, isIterStart, isMintSuccess]
  · simp only [afterBalance, hn, hg]
    rcases hrest with ⟨e, hs⟩ | ⟨s, hs, hrest⟩
    · simp only [hs]
      refine ⟨by trivial, ?_, ?_⟩ <;>
        (split <;>
          simp [List.countP_append, List.countP_cons, List.countP_nil,
            isIterStart, isMintSuccess])
    · simp only [hs]
      rcases hrest with ⟨e, hw⟩ | ⟨w, hw, e, hrc⟩
      · simp only [hw]
        refine ⟨by trivial, ?_, ?_⟩ <;>
          (split <;>
            simp [List.countP_append, List.countP_cons, List.countP_nil,
              isIterStart, isMintSuccess])
      · simp only [hw, hrc]
        refine ⟨by trivial, ?_, ?_⟩ <;>
          (split <;>
            simp [List.countP_append, List.countP_cons, List.countP_nil,
              isIterStart, isMintSuccess])

end BodyLemmas


section RunLemmas

lemma pause_countP (c : Prop) [Decidable c] (d : ℚ) (p : LogEvent → Bool)
    (hp : p (.chilling d) = false) :
    (if c then [LogEvent.chilling d] else []).countP p = 0 := by
  split <;> simp [hp]

lemma runLoop_ok_run (cfg : Config) (tail good : List IterResponses) (i : Int)
    (hok : ∀ r ∈ good, okResp cfg r = true)
    (hle : i + good.length ≤ cfg.maxIterations) :
    ∃ E : List LogEvent,
      (runLoop cfg (good ++ tail) i).events
        = E ++ (runLoop cfg tail (i + good.length)).events ∧
      E.countP isIterStart = good.length ∧
      E.countP isMintSuccess = good.length ∧
      E.countP isTxSent = good.length ∧
      E.countP isTerminal = 0 ∧
      (runLoop cfg (good ++ tail) i).built.length
        = good.length + (runLoop cfg tail (i + good.length)).built.length ∧
      (runLoop cfg (good ++ tail) i).successes
        = (runLoop cfg tail (i + good.length)).successes ∧
      (runLoop cfg (good ++ tail) i).result
        = (runLoop cfg tail (i + good.length)).result := by
  induction good generalizing i with
  | nil =>
      refine ⟨[], ?_⟩
      simp
  | cons r gs ih =>
      have hi : i < cfg.maxIterations := by
        simp only [List.length_cons] at hle
        push_cast at hle
        omega
      have hokr : okResp cfg r = true := hok r (by simp)
      obtain ⟨hnext, e1, e2, e3, e4, hb1⟩ := iterBody_ok cfg r i hokr
      have hle2 : (i + 1) + (gs.length : Int) ≤ cfg.maxIterations := by
        simp only [List.length_cons] at hle
        push_cast at hle ⊢
        omega
      obtain ⟨E, hE, c1, c2, c3, c4, cb, cs, cr⟩ :=
        ih (i + 1) (fun x hx => hok x (by simp [hx])) hle2
      have hidx : i + ((gs.length + 1 : Nat) : Int) = i + 1 + (gs.length : Int) := by
        push_cast
        ring
      rw [List.cons_append,
        runLoop_cons_some cfg r (gs ++ tail) i (i + 1) hi hnext]
      refine ⟨(iterBody cfg r i).events
        ++ (if i + 1 < cfg.maxIterations then [LogEvent.chilling cfg.delaySeconds] else [])
        ++ E, ?_, ?_, ?_, ?_, ?_, ?_, ?_, ?_⟩
      · simp only [hE, List.length_cons, hidx, List.append_assoc]
      · simp [List.countP_append, e1, c1,
          pause_countP _ _ isIterStart (by simp [isIterStart]), Nat.add_comm]
      · simp [List.countP_append, e2, c2,
          pause_countP _ _ isMintSuccess (by simp [isMintSuccess]), Nat.add_comm]
      · simp [List.countP_append, e3, c3,
          pause_countP _ _ isTxSent (by simp [isTxSent]), Nat.add_comm]
      · simp [List.countP_append, e4, c4,
          pause_countP _ _ isTerminal (by simp [isTerminal])]
      · rw [List.length_append, hb1, List.length_cons, hidx, cb]
        omega
      · rw [cs, List.length_cons, hidx]
      · rw [cr, List.length_cons, hidx]

lemma runLoop_finished_successes (cfg : Config) (resps : List IterResponses)
    (i : Int) (hi : i ≤ cfg.maxIterations)
    (hf : (runLoop cfg resps i).result = .finished) :
    (runLoop cfg resps i).successes = cfg.maxIterations := by
  induction resps generalizing i with
  | nil =>
      by_cases h : i < cfg.maxIterations
      · rw [runLoop_nil cfg i h] at hf
        simp at hf
      · rw [runLoop_stop cfg [] i h]
        simp only
        omega
  | cons r rest ih =>
      by_cases h : i < cfg.maxIterations
      · rcases iterBody_next cfg r i with hn | hn | hn
        · rw [runLoop_cons_none cfg r rest i h hn] at hf
          simp at hf
        · rw [runLoop_cons_some cfg r rest i i h hn] at hf ⊢
          exact ih i hi hf
        · rw [runLoop_cons_some cfg r rest i (i + 1) h hn] at hf ⊢
          exact ih (i + 1) (by omega) hf
      · rw [runLoop_stop cfg (r :: rest) i h]
        simp only
        omega

lemma runLoop_notFinished_terminal (cfg : Config) (resps : List IterResponses)
    (i : Int) (hf : (runLoop cfg resps i).result ≠ .finished) :
    (runLoop cfg resps i).events.countP isTerminal = 0 := by
  induction resps generalizing i with
  | nil =>
      by_cases h : i < cfg.maxIterations
      · rw [runLoop_nil cfg i h]
        rfl
      · rw [runLoop_stop cfg [] i h] at hf
        simp at hf
  | cons r rest ih =>
      by_cases h : i < cfg.maxIterations
      · rcases iterBody_next cfg r i with hn | hn | hn
        · rw [runLoop_cons_none cfg r rest i h hn]
          exact iterBody_countP_terminal cfg r i
        · rw [runLoop_cons_some cfg r rest i i h hn] at hf ⊢
          simp [List.countP_append, iterBody_countP_terminal,
            pause_countP _ _ isTerminal (by simp [isTerminal]), ih i hf]
        · rw [runLoop_cons_some cfg r rest i (i + 1) h hn] at hf ⊢
          simp [List.countP_append, iterBody_countP_terminal,
            pause_countP _ _ isTerminal (by simp [isTerminal]), ih (i + 1) hf]
      · rw [runLoop_stop cfg (r :: rest) i h] at hf
        simp at hf

lemma iterBody_countP_stoppedEarly (cfg : Config) (r : IterResponses)
    (i : Int) :
    (iterBody cfg r i).events.countP isStoppedEarlyEv = 0 := by
  have hmono :
      (iterBody cfg r i).events.countP isStoppedEarlyEv
        ≤ (iterBody cfg r i).events.countP isTerminal := by
    refine List.countP_mono_left ?_
    intro a _ ha
    cases a <;> simp_all [isStoppedEarlyEv, isTerminal]
  have := iterBody_countP_terminal cfg r i
  omega

lemma runLoop_stoppedEarly_zero (cfg : Config) (resps : List IterResponses)
    (i : Int) :
    (runLoop cfg resps i).events.countP isStoppedEarlyEv = 0 := by
  induction resps generalizing i with
  | nil =>
      by_cases h : i < cfg.maxIterations
      · rw [runLoop_nil cfg i h]
        rfl
      · rw [runLoop_stop cfg [] i h]
        rw [if_pos (not_lt.mp h)]
        simp [isStoppedEarlyEv]
  | cons r rest ih =>
      by_cases h : i < cfg.maxIterations
      · rcases iterBody_next cfg r i with hn | hn | hn
        · rw [runLoop_cons_none cfg r rest i h hn]
          exact iterBody_countP_stoppedEarly cfg r i
        · rw [runLoop_cons_some cfg r rest i i h hn]
          simp [List.countP_append, iterBody_countP_stoppedEarly,
            pause_countP _ _ isStoppedEarlyEv (by simp [isStoppedEarlyEv]), ih i]
        · rw [runLoop_cons_some cfg r rest i (i + 1) h hn]
          simp [List.countP_append, iterBody_countP_stoppedEarly,
            pause_countP _ _ isStoppedEarlyEv (by simp [isStoppedEarlyEv]),
            ih (i + 1)]
      · rw [runLoop_stop cfg (r :: rest) i h]
        rw [if_pos (not_lt.mp h)]
        simp [isStoppedEarlyEv]

end RunLemmas

section Claims

/-- Claim C3: for every configured maximum iteration count N ≥ 1, if every
chain-client operation succeeds (balance at or above minimum, receipt status
success every time), the loop performs exactly N full iterations, counts N
successes, and terminates reporting exhaustion with the final log
"Hit max iterations (N). Done!". -/
theorem claim_c3_all_success_exhausts (cfg : Config)
    (resps : List IterResponses)
    (hN : 1 ≤ cfg.maxIterations)
    (hlen : (resps.length : Int) = cfg.maxIterations)
    (hok : ∀ r ∈ resps, okResp cfg r = true) :
    (runLoop cfg resps 0).result = .finished ∧
    (runLoop cfg resps 0).successes = cfg.maxIterations ∧
    (runLoop cfg resps 0).events.countP isIterStart = resps.length ∧
    (runLoop cfg resps 0).events.countP isMintSuccess = resps.length ∧
    (runLoop cfg resps 0).events.getLast?
      = some (.hitMax cfg.maxIterations) ∧
    logMessage (.hitMax cfg.maxIterations)
      = "Hit max iterations (" ++ toString cfg.maxIterations ++ "). Done!" := by
  have h0 : (0 : Int) + (resps.length : Int) ≤ cfg.maxIterations := by omega
  obtain ⟨E, hE, c1, c2, c3, c4, cb, cs, cr⟩ :=
    runLoop_ok_run cfg [] resps 0 hok h0
  simp only [List.append_nil] at hE cb cs cr
  have hidx : (0 : Int) + (resps.length : Int) = cfg.maxIterations := by omega
  have hcont : runLoop cfg [] ((0 : Int) + (resps.length : Int))
      = { events := [LogEvent.hitMax cfg.maxIterations], built := []
          signedCalls := [], successes := cfg.maxIterations
          result := .finished } := by
    rw [hidx, runLoop_stop cfg [] _ (lt_irrefl _), if_pos (le_refl _)]
  rw [hcont] at hE cs cr
  refine ⟨cr, cs, ?_, ?_, ?_, rfl⟩
  · rw [hE]
    simp [List.countP_append, c1, List.countP_cons, List.countP_nil,
      isIterStart]
  · rw [hE]
    simp [List.countP_append, c2, List.countP_cons, List.countP_nil,
      isMintSuccess]
  · rw [hE]
    exact List.getLast?_concat _

/-- Claim C4: if any of the nonce fetch, signing, broadcast, or receipt wait
operations raises an error on iteration k (= good.length + 1), the run
terminates immediately (early return), with exactly k−1 completed successes,
and iteration k+1 is never attempted (exactly k iteration starts occur). -/
theorem claim_c4_late_failure_stops (cfg : Config)
    (good : List IterResponses) (bad : IterResponses)
    (rest : List IterResponses)
    (hgood : ∀ r ∈ good, okResp cfg r = true)
    (hk : (good.length : Int) < cfg.maxIterations)
    (hbad : failsLateStep cfg bad = true) :
    (runLoop cfg (good ++ bad :: rest) 0).result = .earlyReturn ∧
    (runLoop cfg (good ++ bad :: rest) 0).successes = good.length ∧
    (runLoop cfg (good ++ bad :: rest) 0).events.countP isIterStart
      = good.length + 1 ∧
    (runLoop cfg (good ++ bad :: rest) 0).events.countP isMintSuccess
      = good.length := by
  have h0 : (0 : Int) + (good.length : Int) ≤ cfg.maxIterations := by omega
  obtain ⟨E, hE, c1, c2, c3, c4, cb, cs, cr⟩ :=
    runLoop_ok_run cfg (bad :: rest) good 0 hgood h0
  simp only [zero_add] at hE cb cs cr
  obtain ⟨hnone, b1, b2⟩ :=
    iterBody_lateFail cfg bad (good.length : Int) hbad
  have hcont := runLoop_cons_none cfg bad rest (good.length : Int) hk hnone
  rw [hcont] at hE cs cr
  refine ⟨cr, ?_, ?_, ?_⟩
  · rw [cs]
  · rw [hE]
    simp [List.countP_append, c1, b1]
  · rw [hE]
    simp [List.countP_append, c2, b2]

/-- Claim C5: if the balance query succeeds but returns a value below the
configured minimum on iteration k (= good.length + 1), the loop performs no
broadcast on iteration k and stops with a graceful low-balance report, having
completed exactly k−1 successful iterations; if this happens on the first
iteration, no transaction is ever built. -/
theorem claim_c5_low_balance_stops (cfg : Config)
    (good : List IterResponses) (bad : IterResponses)
    (rest : List IterResponses)
    (hgood : ∀ r ∈ good, okResp cfg r = true)
    (hk : (good.length : Int) < cfg.maxIterations)
    (hbad : lowBalResp cfg bad = true) :
    (runLoop cfg (good ++ bad :: rest) 0).result = .earlyReturn ∧
    (runLoop cfg (good ++ bad :: rest) 0).successes = good.length ∧
    (runLoop cfg (good ++ bad :: rest) 0).events.countP isTxSent
      = good.length ∧
    (∃ b, LogEvent.lowBalance b cfg.minBalanceSomi
      ∈ (runLoop cfg (good ++ bad :: rest) 0).events) ∧
    (runLoop cfg (good ++ bad :: rest) 0).built.length = good.length ∧
    (good = [] → (runLoop cfg (good ++ bad :: rest) 0).built = [] ∧
      (runLoop cfg (good ++ bad :: rest) 0).events.countP isTxSent = 0) := by
  have h0 : (0 : Int) + (good.length : Int) ≤ cfg.maxIterations := by omega
  obtain ⟨E, hE, c1, c2, c3, c4, cb, cs, cr⟩ :=
    runLoop_ok_run cfg (bad :: rest) good 0 hgood h0
  simp only [zero_add] at hE cb cs cr
  obtain ⟨b, hbody⟩ := iterBody_lowBal cfg bad (good.length : Int) hbad
  have hnone : (iterBody cfg bad (good.length : Int)).next = none := by
    rw [hbody]
  have hcont := runLoop_cons_none cfg bad rest (good.length : Int) hk hnone
  rw [hbody] at hcont
  rw [hcont] at hE cs cr cb
  have htx : (runLoop cfg (good ++ bad :: rest) 0).events.countP isTxSent
      = good.length := by
    rw [hE]
    simp [List.countP_append, c3, List.countP_cons, List.countP_nil, isTxSent]
  have hblen : (runLoop cfg (good ++ bad :: rest) 0).built.length
      = good.length := by
    rw [cb]
    simp
  refine ⟨cr, ?_, htx, ⟨b, ?_⟩, hblen, ?_⟩
  · rw [cs]
  · rw [hE]
    simp
  · intro hnil
    refine ⟨?_, ?_⟩
    · rw [← List.length_eq_zero, hblen, hnil]
      rfl
    · rw [htx, hnil]
      rfl

/-- Claim C6: if gas estimation succeeds with a value strictly greater than
the configured gas limit, a warning is logged and the iteration proceeds
unchanged to signing and broadcast; the transaction handed to the signer
carries the originally configured gas limit (not the estimate). -/
theorem claim_c6_gas_warning_proceeds (cfg : Config) (r : IterResponses)
    (i : Int) (b n g s : Nat)
    (hb : r.getBalance = .ok b)
    (hmin : ¬ fromWei b < cfg.minBalanceSomi)
    (hn : r.getTransactionCount = .ok n)
    (hg : r.estimateGas = .ok g)
    (hgt : cfg.gasLimit < g)
    (hs : r.signTransaction = .ok s) :
    LogEvent.gasWarning g cfg.gasLimit ∈ (iterBody cfg r i).events ∧
    (iterBody cfg r i).signedCalls = [mkTx cfg n] ∧
    (mkTx cfg n).gas = cfg.gasLimit ∧
    ((∃ w, r.sendRawTransaction = .ok w ∧
        LogEvent.txSent w ∈ (iterBody cfg r i).events) ∨
     (∃ e, r.sendRawTransaction = .error e ∧
        LogEvent.sendFailed e ∈ (iterBody cfg r i).events)) := by
  simp only [iterBody, hb]
  rw [if_neg hmin]
  simp only [afterBalance, hn, hg, hs]
  rw [if_pos hgt]
  rcases hw : r.sendRawTransaction with e | w
  · simp only [hw]
    refine ⟨by simp, by trivial, by trivial, Or.inr ⟨e, by simp [hw], by simp⟩⟩
  · simp only [hw]
    rcases hrc : r.waitForReceipt with e2 | rc
    · simp only [hrc]
      refine ⟨by simp, by trivial, by trivial,
        Or.inl ⟨w, by simp [hw], by simp⟩⟩
    · simp only [hrc]
      split <;>
        exact ⟨by simp, by trivial, by trivial,
          Or.inl ⟨w, by simp [hw], by simp⟩⟩

/-- Claim C7: if the connectivity check fails or the address derived from
the signing credential does not case-insensitively equal the configured
source address, the run aborts before the loop starts: the only event is the
setup-crash log, zero iterations are performed, and nothing is built or
signed. -/
theorem claim_c7_setup_abort (env : SetupEnv) (cfg : Config)
    (resps : List IterResponses)
    (h : env.isConnected = false ∨
         env.derivedAddress.toLower ≠ cfg.fromAddress.toLower) :
    ∃ e, mainRun env cfg resps =
      { events := [.setupCrashed e], built := [], signedCalls := []
        successes := 0, result := .earlyReturn } ∧
    (mainRun env cfg resps).events.countP isIterStart = 0 ∧
    (mainRun env cfg resps).built = [] ∧
    (mainRun env cfg resps).signedCalls = [] := by
  have hset : ∃ e, setup_web3 env cfg = .error e := by
    unfold setup_web3
    by_cases hv : env.web3Version < "6.0.0"
    · rw [if_pos hv]
      exact ⟨_, rfl⟩
    · rw [if_neg hv]
      rcases h with hc | ha
      · rw [if_pos hc]
        exact ⟨_, rfl⟩
      · by_cases hc : env.isConnected = false
        · rw [if_pos hc]
          exact ⟨_, rfl⟩
        · rw [if_neg hc, if_pos ha]
          exact ⟨_, rfl⟩
  obtain ⟨e, he⟩ := hset
  refine ⟨e, ?_, ?_, ?_, ?_⟩ <;>
    simp [mainRun, he, isIterStart]

/-- Claim C8: the loop's observable event trace — in particular the sequence
and count of logged stop and success events — is a deterministic function of
the configuration, setup environment, and chain-client responses: two runs
with identical inputs produce identical traces. -/
theorem claim_c8_deterministic (env1 env2 : SetupEnv) (cfg1 cfg2 : Config)
    (r1 r2 : List IterResponses)
    (henv : env1 = env2) (hcfg : cfg1 = cfg2) (hr : r1 = r2) :
    (mainRun env1 cfg1 r1).events.filter isStopOrSuccess
      = (mainRun env2 cfg2 r2).events.filter isStopOrSuccess ∧
    (mainRun env1 cfg1 r1).events.countP isStopOrSuccess
      = (mainRun env2 cfg2 r2).events.countP isStopOrSuccess ∧
    mainRun env1 cfg1 r1 = mainRun env2 cfg2 r2 := by
  subst henv hcfg hr
  exact ⟨rfl, rfl, rfl⟩

/-- Claim C9 (implicit): whenever the while loop exits through its loop
condition (result `finished`), the success counter equals the configured
maximum (given the config invariant that the maximum is nonnegative), the
terminal branch logging "Stopped early—check errors above." is unreachable
(that event never occurs in any trace), and every early return emits no
terminal summary line at all. -/
theorem claim_c9_early_stop_invariant (env : SetupEnv) (cfg : Config)
    (resps : List IterResponses) (hpos : 0 ≤ cfg.maxIterations) :
    ((mainRun env cfg resps).result = .finished →
      (mainRun env cfg resps).successes = cfg.maxIterations) ∧
    LogEvent.stoppedEarly ∉ (mainRun env cfg resps).events ∧
    ((mainRun env cfg resps).result = .earlyReturn →
      (mainRun env cfg resps).events.countP isTerminal = 0) := by
  unfold mainRun
  cases hset : setup_web3 env cfg with
  | error e =>
      refine ⟨?_, ?_, ?_⟩ <;> simp [isTerminal]
  | ok a =>
      refine ⟨?_, ?_, ?_⟩
      · intro hf
        simp only at hf ⊢
        exact runLoop_finished_successes cfg resps 0 hpos hf
      · simp only [List.mem_cons, not_or]
        refine ⟨by simp, ?_⟩
        have hz := runLoop_stoppedEarly_zero cfg resps 0
        rw [List.countP_eq_zero] at hz
        intro hmem
        have := hz _ hmem
        simp [isStoppedEarlyEv] at this
      · intro he
        simp only at he ⊢
        rw [List.countP_cons_of_neg _ _ (by simp [isTerminal])]
        exact runLoop_notFinished_terminal cfg resps 0 (by simp [he])

/-- Claim C10 (implicit): the web3 version compatibility check compares
version strings lexicographically, so a version string that is numerically
at least 6.0.0 (major component ≥ 6) but lexicographically below "6.0.0"
(such as "10.0.0") makes setup raise the incompatible-version error and the
run abort before the loop starts. -/
theorem claim_c10_lexicographic_version (env : SetupEnv) (cfg : Config)
    (resps : List IterResponses) (m : Nat)
    (hm : versionMajor env.web3Version = m) (h6 : 6 ≤ m)
    (hlex : env.web3Version < "6.0.0") :
    mainRun env cfg resps =
      { events := [.setupCrashed
          "Need web3.py 6.0.0+. Run \x27pip install web3>=6.0.0\x27."]
        built := [], signedCalls := [], successes := 0
        result := .earlyReturn } ∧
    (mainRun env cfg resps).events.countP isIterStart = 0 := by
  have hset : setup_web3 env cfg = .error
      "Need web3.py 6.0.0+. Run \x27pip install web3>=6.0.0\x27." := by
    unfold setup_web3
    rw [if_pos hlex]
  constructor
  · unfold mainRun
    rw [hset]
  · unfold mainRun
    rw [hset]
    simp [isIterStart]

end Claims

section Fixtures

/-- A deterministic always-succeeding chain-client response: 2 SOMI balance,
gas estimate under the limit, receipt with success status. -/
def respOk : IterResponses :=
  { getBalance := .ok (2 * 10 ^ 18), getTransactionCount := .ok 5
    estimateGas := .ok 60000, signTransaction := .ok 11
    sendRawTransaction := .ok 22
    waitForReceipt := .ok { blockNumber := 7, status := 1 } }

def respBalErr : IterResponses :=
  { respOk with getBalance := .error "rpc down" }

def respNonceErr : IterResponses :=
  { respOk with getTransactionCount := .error "nonce unavailable" }

def respLowBal : IterResponses :=
  { respOk with getBalance := .ok 0 }

def respStatus0 : IterResponses :=
  { respOk with waitForReceipt := .ok { blockNumber := 7, status := 0 } }

def respGasHigh : IterResponses :=
  { respOk with estimateGas := .ok 150000 }

/-- A concrete configuration with the given maximum iteration count,
gas limit 100000 and minimum balance 1 SOMI. -/
def cfgN (n : Int) : Config :=
  { rpcUrl := "http://rpc.local", privateKey := "0xkey"
    fromAddress := "0xabc1", toAddress := "0xdef2", chainId := 50312
    gasLimit := 100000, maxFeePerGas := 30000000000
    maxPriorityFeePerGas := 2000000000, maxIterations := n
    delaySeconds := 2, minBalanceSomi := 1, baseData := "0xdata" }

def envStd : SetupEnv :=
  { web3Version := "6.5.0", isConnected := true, derivedAddress := "0xabc1" }

def envDown : SetupEnv :=
  { web3Version := "6.5.0", isConnected := false, derivedAddress := "0xabc1" }

def envOld : SetupEnv :=
  { web3Version := "10.0.0", isConnected := true, derivedAddress := "0xabc1" }

end Fixtures

section CodeBehavior

/-- Claim C1 is refuted by the code: at a run whose only iteration's balance
query raises, the loop logs the failure ("Gracefully stopping.") but the
except-branch has no return, so the very same iteration still builds, signs
and broadcasts a transaction, counts a success, and the run finishes
normally. -/
theorem claim_c1_balance_error_continues :
    LogEvent.balanceCheckFailed "rpc down"
      ∈ (runLoop (cfgN 1) [respBalErr] 0).events ∧
    (runLoop (cfgN 1) [respBalErr] 0).built.length = 1 ∧
    (runLoop (cfgN 1) [respBalErr] 0).signedCalls.length = 1 ∧
    LogEvent.txSent 22 ∈ (runLoop (cfgN 1) [respBalErr] 0).events ∧
    (runLoop (cfgN 1) [respBalErr] 0).successes = 1 ∧
    (runLoop (cfgN 1) [respBalErr] 0).result = .finished := by
  norm_num [runLoop, iterBody, afterBalance, mkTx, fromWei, cfgN,
    respBalErr, respOk]

/-- Claim C2 is refuted by the code: after a receipt with failure status the
loop logs "Tx failed. Gracefully stopping." but neither returns nor
increments the counter, so it starts another iteration. With max 2 and two
failed-status responses the trace contains two iteration starts, zero
successes, and the loop is still running when the oracle is exhausted. -/
theorem claim_c2_failed_receipt_continues :
    (runLoop (cfgN 2) [respStatus0, respStatus0] 0).events.countP isIterStart
      = 2 ∧
    LogEvent.txFailedStatus
      ∈ (runLoop (cfgN 2) [respStatus0, respStatus0] 0).events ∧
    (runLoop (cfgN 2) [respStatus0, respStatus0] 0).successes = 0 ∧
    (runLoop (cfgN 2) [respStatus0, respStatus0] 0).result = .outOfFuel := by
  norm_num [runLoop, iterBody, afterBalance, mkTx, fromWei, cfgN,
    respStatus0, respOk, List.countP_cons, List.countP_nil, isIterStart]

end CodeBehavior

section Witnesses

theorem claim_c3_witness :
    1 ≤ (cfgN 3).maxIterations ∧
    ((([respOk, respOk, respOk] : List IterResponses).length : Int)
      = (cfgN 3).maxIterations) ∧
    (∀ r ∈ ([respOk, respOk, respOk] : List IterResponses),
      okResp (cfgN 3) r = true) ∧
    ((runLoop (cfgN 3) [respOk, respOk, respOk] 0).result = .finished ∧
     (runLoop (cfgN 3) [respOk, respOk, respOk] 0).successes
       = (cfgN 3).maxIterations ∧
     (runLoop (cfgN 3) [respOk, respOk, respOk] 0).events.countP isIterStart
       = ([respOk, respOk, respOk] : List IterResponses).length ∧
     (runLoop (cfgN 3) [respOk, respOk, respOk] 0).events.countP isMintSuccess
       = ([respOk, respOk, respOk] : List IterResponses).length ∧
     (runLoop (cfgN 3) [respOk, respOk, respOk] 0).events.getLast?
       = some (.hitMax (cfgN 3).maxIterations) ∧
     logMessage (.hitMax (cfgN 3).maxIterations)
       = "Hit max iterations (" ++ toString (cfgN 3).maxIterations
           ++ "). Done!") :=
  have hok : ∀ r ∈ ([respOk, respOk, respOk] : List IterResponses),
      okResp (cfgN 3) r = true := by
    intro r hr
    simp only [List.mem_cons, List.not_mem_nil, or_false] at hr
    rcases hr with h | h | h <;> subst h <;>
      norm_num [okResp, respOk, cfgN, fromWei]
  ⟨by norm_num [cfgN], by norm_num [cfgN], hok,
    claim_c3_all_success_exhausts (cfgN 3) [respOk, respOk, respOk]
      (by norm_num [cfgN]) (by norm_num [cfgN]) hok⟩

theorem claim_c4_witness :
    (∀ r ∈ ([respOk] : List IterResponses), okResp (cfgN 2) r = true) ∧
    ((([respOk] : List IterResponses).length : Int)
      < (cfgN 2).maxIterations) ∧
    failsLateStep (cfgN 2) respNonceErr = true ∧
    ((runLoop (cfgN 2) ([respOk] ++ respNonceErr :: []) 0).result
       = .earlyReturn ∧
     (runLoop (cfgN 2) ([respOk] ++ respNonceErr :: []) 0).successes
       = ([respOk] : List IterResponses).length ∧
     (runLoop (cfgN 2) ([respOk] ++ respNonceErr :: []) 0).events.countP
       isIterStart = ([respOk] : List IterResponses).length + 1 ∧
     (runLoop (cfgN 2) ([respOk] ++ respNonceErr :: []) 0).events.countP
       isMintSuccess = ([respOk] : List IterResponses).length) :=
  have hok : ∀ r ∈ ([respOk] : List IterResponses),
      okResp (cfgN 2) r = true := by
    intro r hr
    simp only [List.mem_cons, List.not_mem_nil, or_false] at hr
    subst hr
    norm_num [okResp, respOk, cfgN, fromWei]
  have hbad : failsLateStep (cfgN 2) respNonceErr = true := by
    norm_num [failsLateStep, respNonceErr, respOk, cfgN, fromWei]
  ⟨hok, by norm_num [cfgN], hbad,
    claim_c4_late_failure_stops (cfgN 2) [respOk] respNonceErr []
      hok (by norm_num [cfgN]) hbad⟩

theorem claim_c5_witness :
    (∀ r ∈ ([] : List IterResponses), okResp (cfgN 1) r = true) ∧
    ((([] : List IterResponses).length : Int) < (cfgN 1).maxIterations) ∧
    lowBalResp (cfgN 1) respLowBal = true ∧
    ((runLoop (cfgN 1) ([] ++ respLowBal :: []) 0).result = .earlyReturn ∧
     (runLoop (cfgN 1) ([] ++ respLowBal :: []) 0).successes
       = ([] : List IterResponses).length ∧
     (runLoop (cfgN 1) ([] ++ respLowBal :: []) 0).events.countP isTxSent
       = ([] : List IterResponses).length ∧
     (∃ b, LogEvent.lowBalance b (cfgN 1).minBalanceSomi
       ∈ (runLoop (cfgN 1) ([] ++ respLowBal :: []) 0).events) ∧
     (runLoop (cfgN 1) ([] ++ respLowBal :: []) 0).built.length
       = ([] : List IterResponses).length ∧
     (([] : List IterResponses) = [] →
       (runLoop (cfgN 1) ([] ++ respLowBal :: []) 0).built = [] ∧
       (runLoop (cfgN 1) ([] ++ respLowBal :: []) 0).events.countP isTxSent
         = 0)) :=
  have hbad : lowBalResp (cfgN 1) respLowBal = true := by
    norm_num [lowBalResp, respLowBal, respOk, cfgN, fromWei]
  ⟨by simp, by norm_num [cfgN], hbad,
    claim_c5_low_balance_stops (cfgN 1) [] respLowBal []
      (by simp) (by norm_num [cfgN]) hbad⟩

theorem claim_c6_witness :
    respGasHigh.getBalance = .ok (2 * 10 ^ 18) ∧
    ¬ fromWei (2 * 10 ^ 18) < (cfgN 1).minBalanceSomi ∧
    respGasHigh.getTransactionCount = .ok 5 ∧
    respGasHigh.estimateGas = .ok 150000 ∧
    (cfgN 1).gasLimit < 150000 ∧
    respGasHigh.signTransaction = .ok 11 ∧
    (LogEvent.gasWarning 150000 (cfgN 1).gasLimit
       ∈ (iterBody (cfgN 1) respGasHigh 0).events ∧
     (iterBody (cfgN 1) respGasHigh 0).signedCalls = [mkTx (cfgN 1) 5] ∧
     (mkTx (cfgN 1) 5).gas = (cfgN 1).gasLimit ∧
     ((∃ w, respGasHigh.sendRawTransaction = .ok w ∧
        LogEvent.txSent w ∈ (iterBody (cfgN 1) respGasHigh 0).events) ∨
      (∃ e, respGasHigh.sendRawTransaction = .error e ∧
        LogEvent.sendFailed e ∈ (iterBody (cfgN 1) respGasHigh 0).events))) :=
  have hmin : ¬ fromWei (2 * 10 ^ 18) < (cfgN 1).minBalanceSomi := by
    norm_num [fromWei, cfgN]
  ⟨rfl, hmin, rfl, rfl, by norm_num [cfgN], rfl,
    claim_c6_gas_warning_proceeds (cfgN 1) respGasHigh 0 (2 * 10 ^ 18) 5
      150000 11 rfl hmin rfl rfl (by norm_num [cfgN]) rfl⟩

theorem claim_c7_witness :
    (envDown.isConnected = false ∨
      envDown.derivedAddress.toLower ≠ (cfgN 1).fromAddress.toLower) ∧
    (∃ e, mainRun envDown (cfgN 1) [respOk] =
      { events := [.setupCrashed e], built := [], signedCalls := []
        successes := 0, result := .earlyReturn } ∧
     (mainRun envDown (cfgN 1) [respOk]).events.countP isIterStart = 0 ∧
     (mainRun envDown (cfgN 1) [respOk]).built = [] ∧
     (mainRun envDown (cfgN 1) [respOk]).signedCalls = []) :=
  ⟨Or.inl rfl,
    claim_c7_setup_abort envDown (cfgN 1) [respOk] (Or.inl rfl)⟩

theorem claim_c8_witness :
    envStd = envStd ∧ cfgN 1 = cfgN 1 ∧
    ([respOk] : List IterResponses) = [respOk] ∧
    ((mainRun envStd (cfgN 1) [respOk]).events.filter isStopOrSuccess
       = (mainRun envStd (cfgN 1) [respOk]).events.filter isStopOrSuccess ∧
     (mainRun envStd (cfgN 1) [respOk]).events.countP isStopOrSuccess
       = (mainRun envStd (cfgN 1) [respOk]).events.countP isStopOrSuccess ∧
     mainRun envStd (cfgN 1) [respOk] = mainRun envStd (cfgN 1) [respOk]) :=
  ⟨rfl, rfl, rfl,
    claim_c8_deterministic envStd envStd (cfgN 1) (cfgN 1) [respOk] [respOk]
      rfl rfl rfl⟩

theorem claim_c9_witness :
    0 ≤ (cfgN 1).maxIterations ∧
    (((mainRun envStd (cfgN 1) [respOk]).result = .finished →
       (mainRun envStd (cfgN 1) [respOk]).successes
         = (cfgN 1).maxIterations) ∧
     LogEvent.stoppedEarly ∉ (mainRun envStd (cfgN 1) [respOk]).events ∧
     ((mainRun envStd (cfgN 1) [respOk]).result = .earlyReturn →
       (mainRun envStd (cfgN 1) [respOk]).events.countP isTerminal = 0)) :=
  ⟨by norm_num [cfgN],
    claim_c9_early_stop_invariant envStd (cfgN 1) [respOk]
      (by norm_num [cfgN])⟩

theorem claim_c10_witness :
    versionMajor envOld.web3Version = 10 ∧ 6 ≤ 10 ∧
    envOld.web3Version < "6.0.0" ∧
    (mainRun envOld (cfgN 1) [respOk] =
      { events := [.setupCrashed
          "Need web3.py 6.0.0+. Run \x27pip install web3>=6.0.0\x27."]
        built := [], signedCalls := [], successes := 0
        result := .earlyReturn } ∧
     (mainRun envOld (cfgN 1) [respOk]).events.countP isIterStart = 0) :=
  have hlex : envOld.web3Version < "6.0.0" := by
    rw [show envOld.web3Version = "10.0.0" from rfl, String.lt_iff_toList_lt]
    decide
  ⟨by decide, by decide, hlex,
    claim_c10_lexicographic_version envOld (cfgN 1) [respOk] 10
      (by decide) (by decide) hlex⟩

end Witnesses

end MoonPass
